import Mathlib

/-!
Verification development for the GoodFoods reservation system.

The development shallowly embeds the Capacity Store (`database/restaurant_db.py`),
the Tool Dispatcher (`mcp_server/server.py`) and the Conversation Orchestrator
(`agent/agent.py`).  Python dictionaries keyed by identifier are modelled as
insertion-ordered association lists (a `List` of records looked up by their `id`
field via first match; dictionary keys are unique in the source, so first-match
lookup coincides with dictionary lookup).  Python `int` is modelled as `Int`,
Python `float` ratings as `Rat` (all arithmetic performed on ratings in the
source is exact decimal addition and comparison), Python `None`-able values as
`Option`, and Python truthiness of strings and integers by explicit helpers.
Fresh `uuid4` identifiers and `datetime.now()` timestamps are passed in as
explicit parameters.
-/

/-- Python truthiness of an optional string: `None` and `""` are falsy. -/
def truthyStr : Option String → Bool
  | none => false
  | some s => !(s == "")

/-- Python truthiness of an optional integer: `None` and `0` are falsy. -/
def truthyInt : Option Int → Bool
  | none => false
  | some n => !(n == 0)

/-- Python `x or d` for an optional integer `x` (used for `party_size or 1`). -/
def orInt (o : Option Int) (d : Int) : Int :=
  if truthyInt o then o.getD d else d

/-- Python `str.lower()` (source strings are ASCII, where `Char.toLower` agrees). -/
def pyLower (s : String) : String :=
  ⟨s.data.map Char.toLower⟩

/-- Data model of `database/models.py` `Restaurant`.  `operating_hours` maps a
day name to an opening and a closing time; it is stored but never consulted by
the operations below. -/
structure Restaurant where
  id : String
  name : String
  cuisine : String
  location : String
  address : String
  seating_capacity : Int
  operating_hours : List (String × String × String)
  price_range : String
  rating : Rat
  description : String
deriving DecidableEq

/-- Data model of `database/models.py` `Reservation`; `created_at` is an opaque
timestamp. -/
structure Reservation where
  id : String
  restaurant_id : String
  date : String
  time : String
  party_size : Int
  customer_name : String
  created_at : Nat
  status : String
deriving DecidableEq

/-- The in-memory store of `RestaurantDatabase.__init__`: two dictionaries
keyed by identifier, modelled as insertion-ordered lists. -/
structure RestaurantDatabase where
  restaurants : List Restaurant
  reservations : List Reservation
deriving DecidableEq

/-- `RestaurantDatabase.get_restaurant`: dictionary lookup by id. -/
def RestaurantDatabase.get_restaurant (db : RestaurantDatabase)
    (restaurant_id : String) : Option Restaurant :=
  db.restaurants.find? (fun r => r.id == restaurant_id)

/-- `RestaurantDatabase.get_reservation`: dictionary lookup by id. -/
def RestaurantDatabase.get_reservation (db : RestaurantDatabase)
    (reservation_id : String) : Option Reservation :=
  db.reservations.find? (fun r => r.id == reservation_id)

/-- The membership test of the comprehension inside `check_availability`:
same restaurant, same date string, same time string, status `"confirmed"`. -/
def matchesSlot (restaurant_id date time : String) (res : Reservation) : Bool :=
  res.restaurant_id == restaurant_id && res.date == date &&
    res.time == time && res.status == "confirmed"

/-- The `total_reserved` computation inside `check_availability`: the sum of
`party_size` over the confirmed reservations at the exact slot. -/
def total_reserved (l : List Reservation) (restaurant_id date time : String) : Int :=
  ((l.filter (matchesSlot restaurant_id date time)).map (fun res => res.party_size)).sum

/-- `RestaurantDatabase.check_availability`. -/
def RestaurantDatabase.check_availability (db : RestaurantDatabase)
    (restaurant_id date time : String) (party_size : Int) : Bool :=
  match db.get_restaurant restaurant_id with
  | none => false
  | some restaurant =>
    if party_size > restaurant.seating_capacity then false
    else decide (total_reserved db.reservations restaurant_id date time + party_size
      ≤ restaurant.seating_capacity)

/-- Dictionary insertion `self.reservations[reservation.id] = reservation`:
replace in place when the key is present, append otherwise. -/
def upsertReservation (l : List Reservation) (res : Reservation) : List Reservation :=
  if l.any (fun r => r.id == res.id) then
    l.map (fun r => if r.id == res.id then res else r)
  else l ++ [res]

/-- `RestaurantDatabase.create_reservation`.  The fresh `uuid4` identifier and
the `datetime.now()` timestamp are the explicit `new_id` and `now` parameters.
The pair returned is the Python return value together with the mutated store. -/
def RestaurantDatabase.create_reservation (db : RestaurantDatabase)
    (restaurant_id date time : String) (party_size : Int) (customer_name : String)
    (new_id : String) (now : Nat) : Option Reservation × RestaurantDatabase :=
  if db.check_availability restaurant_id date time party_size then
    let reservation : Reservation :=
      ⟨new_id, restaurant_id, date, time, party_size, customer_name, now, "confirmed"⟩
    (some reservation,
      { db with reservations := upsertReservation db.reservations reservation })
  else (none, db)

/-- The in-place status mutation of `cancel_reservation` on the reservation
object found under `reservation_id`. -/
def cancelUpdate (reservation_id : String) (r : Reservation) : Reservation :=
  if r.id == reservation_id then { r with status := "cancelled" } else r

/-- `RestaurantDatabase.cancel_reservation`: `False` when the id is absent,
otherwise sets the found reservation's status to `"cancelled"` and returns
`True`.  The pair is the Python return value with the mutated store. -/
def RestaurantDatabase.cancel_reservation (db : RestaurantDatabase)
    (reservation_id : String) : Bool × RestaurantDatabase :=
  match db.reservations.find? (fun r => r.id == reservation_id) with
  | none => (false, db)
  | some _ =>
    (true, { db with reservations := db.reservations.map (cancelUpdate reservation_id) })

/-- `RestaurantDatabase.search_restaurants`: the four sequential comprehension
filters, each guarded by Python truthiness of its criterion. -/
def RestaurantDatabase.search_restaurants (db : RestaurantDatabase)
    (cuisine location : Option String) (party_size : Option Int)
    (date time : Option String) : List Restaurant :=
  let results := db.restaurants
  let results := if truthyStr cuisine then
      results.filter (fun r => pyLower r.cuisine == pyLower (cuisine.getD ""))
    else results
  let results := if truthyStr location then
      results.filter (fun r => pyLower r.location == pyLower (location.getD ""))
    else results
  let results := if truthyInt party_size then
      results.filter (fun r => decide (party_size.getD 0 ≤ r.seating_capacity))
    else results
  let results := if truthyStr date && truthyStr time then
      results.filter (fun r =>
        db.check_availability r.id (date.getD "") (time.getD "") (orInt party_size 1))
    else results
  results

/-! ### Elementary facts about the slot sum -/

theorem total_reserved_cons (x : Reservation) (l : List Reservation) (rid d t : String) :
    total_reserved (x :: l) rid d t =
      (if matchesSlot rid d t x then x.party_size else 0) + total_reserved l rid d t := by
  simp only [total_reserved, List.filter_cons]
  split <;> simp

theorem total_reserved_append (l : List Reservation) (res : Reservation) (rid d t : String) :
    total_reserved (l ++ [res]) rid d t =
      total_reserved l rid d t + (if matchesSlot rid d t res then res.party_size else 0) := by
  simp only [total_reserved, List.filter_append, List.filter_cons, List.filter_nil]
  split <;> simp

theorem total_reserved_cancel_le (reservation_id rid d t : String) (l : List Reservation)
    (hl : ∀ r ∈ l, 0 ≤ r.party_size) :
    total_reserved (l.map (cancelUpdate reservation_id)) rid d t ≤
      total_reserved l rid d t := by
  induction l with
  | nil => simp [total_reserved]
  | cons x xs ih =>
    have hx : 0 ≤ x.party_size := hl x (by simp)
    have ihs := ih (fun r hr => hl r (by simp [hr]))
    rw [List.map_cons, total_reserved_cons, total_reserved_cons]
    refine add_le_add ?_ ihs
    by_cases hid : (x.id == reservation_id) = true
    · have hm : matchesSlot rid d t (cancelUpdate reservation_id x) = false := by
        simp [cancelUpdate, hid, matchesSlot]
      rw [hm]
      simp only [Bool.false_eq_true, if_false]
      split
      · exact hx
      · exact le_refl 0
    · simp [cancelUpdate, hid]

theorem cancelUpdate_id (reservation_id : String) (r : Reservation) :
    (cancelUpdate reservation_id r).id = r.id := by
  simp only [cancelUpdate]
  split <;> rfl

theorem find?_map_cancelUpdate (reservation_id i : String) (l : List Reservation) :
    (l.map (cancelUpdate reservation_id)).find? (fun r => r.id == i) =
      Option.map (cancelUpdate reservation_id) (l.find? (fun r => r.id == i)) := by
  induction l with
  | nil => rfl
  | cons x xs ih =>
    by_cases hx : (x.id == i) = true
    · rw [List.map_cons,
        List.find?_cons_of_pos (p := fun r : Reservation => r.id == i) _ (by simpa [cancelUpdate_id] using hx),
        List.find?_cons_of_pos (p := fun r : Reservation => r.id == i) _ hx]
      rfl
    · rw [List.map_cons,
        List.find?_cons_of_neg (p := fun r : Reservation => r.id == i) _ (by simpa [cancelUpdate_id] using hx),
        List.find?_cons_of_neg (p := fun r : Reservation => r.id == i) _ hx, ih]

theorem upsertReservation_fresh (l : List Reservation) (res : Reservation)
    (h : ∀ r ∈ l, r.id ≠ res.id) : upsertReservation l res = l ++ [res] := by
  have hno : (l.any (fun r => r.id == res.id)) = false := by
    rw [List.any_eq_false]
    intro r hr
    simp [h r hr]
  simp [upsertReservation, hno]

/-! ### Store well-formedness and the capacity invariant -/

/-- The capacity invariant of the spec: for every restaurant reachable by
lookup and every (date, time) slot, the confirmed party sizes at that slot sum
to at most the restaurant's seating capacity. -/
def capacityOK (db : RestaurantDatabase) : Prop :=
  ∀ (rid d t : String) (r : Restaurant), db.get_restaurant rid = some r →
    total_reserved db.reservations rid d t ≤ r.seating_capacity

/-- The data-model constraint that every stored reservation has a positive
party size (the spec declares `party size (positive integer)`). -/
def partySizesOK (db : RestaurantDatabase) : Prop :=
  ∀ res ∈ db.reservations, 1 ≤ res.party_size

theorem cancelUpdate_idem (i : String) (r : Reservation) :
    cancelUpdate i (cancelUpdate i r) = cancelUpdate i r := by
  by_cases h : (r.id == i) = true <;> simp [cancelUpdate, h]

/-- C1: starting from any store satisfying the capacity invariant (with the
data model's positive party sizes), `create_reservation` with a fresh
identifier and `cancel_reservation` both preserve the invariant, and a
`create_reservation` whose party size would push the confirmed sum at the slot
above the seating capacity returns `None` and leaves the reservations map
unchanged. -/
theorem create_cancel_preserve_capacity (db : RestaurantDatabase)
    (h1 : capacityOK db) (h2 : partySizesOK db) :
    (∀ (rid d t : String) (p : Int) (cname new_id : String) (now : Nat),
        (∀ res ∈ db.reservations, res.id ≠ new_id) →
        capacityOK (db.create_reservation rid d t p cname new_id now).2) ∧
    (∀ (rid d t : String) (p : Int) (cname new_id : String) (now : Nat) (r : Restaurant),
        db.get_restaurant rid = some r →
        r.seating_capacity < total_reserved db.reservations rid d t + p →
        db.create_reservation rid d t p cname new_id now = (none, db)) ∧
    (∀ reservation_id : String,
        capacityOK (db.cancel_reservation reservation_id).2) := by
  refine ⟨?_, ?_, ?_⟩
  · intro rid d t p cname new_id now hfresh
    by_cases hav : db.check_availability rid d t p = true
    · -- the booking is admitted: the new reservation is appended
      rcases hg : db.get_restaurant rid with _ | restaurant
      · rw [RestaurantDatabase.check_availability, hg] at hav
        exact absurd hav (by simp)
      rw [RestaurantDatabase.check_availability, hg] at hav
      have hsum : total_reserved db.reservations rid d t + p ≤ restaurant.seating_capacity := by
        by_cases hp : p > restaurant.seating_capacity
        · simp [hp] at hav
        · simpa [hp] using hav
      intro rid' d' t' r' hfind
      rw [RestaurantDatabase.create_reservation] at hfind ⊢
      rw [if_pos (by rw [RestaurantDatabase.check_availability, hg]; simpa [hsum] using hav)]
        at hfind ⊢
      simp only at hfind ⊢
      have hfind' : db.get_restaurant rid' = some r' := hfind
      have hbefore := h1 rid' d' t' r' hfind'
      rw [upsertReservation_fresh _ _ (fun r hr => hfresh r hr), total_reserved_append]
      by_cases hm : matchesSlot rid' d' t'
          ⟨new_id, rid, d, t, p, cname, now, "confirmed"⟩ = true
      · -- the new reservation can only contribute at its own slot
        have hids : (rid = rid' ∧ d = d') ∧ t = t' := by
          simpa [matchesSlot] using hm
        rcases hids with ⟨⟨hrid, hd⟩, ht⟩
        subst hrid; subst hd; subst ht
        have : r' = restaurant := by
          rw [hfind'] at hg
          exact Option.some_inj.mp hg
        subst this
        simpa [hm] using hsum
      · simpa [hm] using hbefore
    · rw [RestaurantDatabase.create_reservation,
        if_neg (by simpa using hav)]
      exact fun rid' d' t' r' hfind => h1 rid' d' t' r' hfind
  · intro rid d t p cname new_id now r hg hover
    have hav : db.check_availability rid d t p = false := by
      rw [RestaurantDatabase.check_availability, hg]
      by_cases hp : p > r.seating_capacity
      · simp [hp]
      · simp only [hp, if_false]
        simpa using not_le.mpr hover
    rw [RestaurantDatabase.create_reservation, if_neg (by simp [hav])]
  · intro reservation_id
    rw [RestaurantDatabase.cancel_reservation]
    rcases hf : db.reservations.find? (fun r => r.id == reservation_id) with _ | found
    · simp only [hf]
      exact h1
    · simp only [hf]
      intro rid d t r hfind
      have hfind' : db.get_restaurant rid = some r := hfind
      have hbefore := h1 rid d t r hfind'
      calc total_reserved (db.reservations.map (cancelUpdate reservation_id)) rid d t
          ≤ total_reserved db.reservations rid d t :=
            total_reserved_cancel_le _ _ _ _ _
              (fun res hres => le_trans (by norm_num) (h2 res hres))
        _ ≤ r.seating_capacity := hbefore

/-- A concrete store used by the witnesses below: one restaurant with
capacity four and no reservations. -/
def witnessRestaurant : Restaurant :=
  ⟨"r1", "Trattoria", "Italian", "Downtown", "1 Main St", 4, [], "$$", 4.6, "Cozy"⟩

def witnessDb : RestaurantDatabase := ⟨[witnessRestaurant], []⟩

theorem create_cancel_preserve_capacity_witness :
    capacityOK witnessDb ∧ partySizesOK witnessDb ∧
      capacityOK ((witnessDb.create_reservation "r1" "2025-06-01" "19:00" 4
        "Alice" "res1" 0).2) := by
  have hcap : capacityOK witnessDb := by
    intro rid d t r hr
    have hmem := List.mem_of_find?_eq_some hr
    simp only [witnessDb, List.mem_singleton] at hmem
    subst hmem
    simp [total_reserved, witnessRestaurant, witnessDb]
  have hps : partySizesOK witnessDb := by
    intro res hres
    simp [witnessDb] at hres
  exact ⟨hcap, hps,
    (create_cancel_preserve_capacity witnessDb hcap hps).1 "r1" "2025-06-01" "19:00" 4
      "Alice" "res1" 0 (by intro res hres; simp [witnessDb] at hres)⟩

/-- A confirmed reservation used by the cancellation examples. -/
def aliceReservation : Reservation :=
  ⟨"res1", "r1", "2025-06-01", "19:00", 2, "Alice", 0, "confirmed"⟩

def cancelDb : RestaurantDatabase := ⟨[witnessRestaurant], [aliceReservation]⟩

/-- C2 counterexample: cancelling a confirmed reservation succeeds, and a
second `cancel_reservation` call on the same (now already-cancelled)
reservation again returns `true` — the claim predicts `false` for the second
call. -/
theorem cancel_second_call_counterexample :
    (cancelDb.cancel_reservation "res1").1 = true ∧
      (((cancelDb.cancel_reservation "res1").2).cancel_reservation "res1").1 = true := by
  exact ⟨rfl, rfl⟩

/-- C2 (amended): `cancel_reservation` returns `true` if and only if the id is
present in the store — including on a second call against an
already-cancelled reservation.  A call on an absent id returns `false` and
leaves the store unchanged, and a repeated call after a successful
cancellation returns `true` while leaving the store (and hence all confirmed
capacity sums) unchanged. -/
theorem cancel_reservation_result (db : RestaurantDatabase) (reservation_id : String) :
    ((db.cancel_reservation reservation_id).1 = true ↔
      ∃ r ∈ db.reservations, r.id = reservation_id) ∧
    ((∀ r ∈ db.reservations, r.id ≠ reservation_id) →
      db.cancel_reservation reservation_id = (false, db)) ∧
    (∀ db1 : RestaurantDatabase,
      db.cancel_reservation reservation_id = (true, db1) →
      db1.cancel_reservation reservation_id = (true, db1)) := by
  refine ⟨?_, ?_, ?_⟩
  · rw [RestaurantDatabase.cancel_reservation]
    rcases hf : db.reservations.find? (fun r => r.id == reservation_id) with _ | found
    · simp only [hf]
      rw [List.find?_eq_none] at hf
      simp only [Bool.false_eq_true, false_iff]
      rintro ⟨r, hr, hid⟩
      exact hf r hr (by simp [hid])
    · simp only [hf, true_iff]
      exact ⟨found, List.mem_of_find?_eq_some hf,
        by simpa using List.find?_some hf⟩
  · intro habs
    rw [RestaurantDatabase.cancel_reservation]
    have hf : db.reservations.find? (fun r => r.id == reservation_id) = none := by
      rw [List.find?_eq_none]
      intro r hr
      simp [habs r hr]
    simp only [hf]
  · intro db1 hcall
    rw [RestaurantDatabase.cancel_reservation] at hcall
    rcases hf : db.reservations.find? (fun r => r.id == reservation_id) with _ | found
    · rw [hf] at hcall
      simp at hcall
    · rw [hf] at hcall
      have hdb1 : ({ db with reservations :=
          db.reservations.map (cancelUpdate reservation_id) } : RestaurantDatabase) = db1 :=
        congrArg Prod.snd hcall
      subst hdb1
      rw [RestaurantDatabase.cancel_reservation]
      have hffind : (db.reservations.map (cancelUpdate reservation_id)).find?
          (fun x => x.id == reservation_id) = some (cancelUpdate reservation_id found) := by
        rw [find?_map_cancelUpdate, hf]
        rfl
      simp only [hffind]
      have hmap : (db.reservations.map (cancelUpdate reservation_id)).map
          (cancelUpdate reservation_id) = db.reservations.map (cancelUpdate reservation_id) := by
        rw [List.map_map]
        exact List.map_congr_left (fun r _ => cancelUpdate_idem reservation_id r)
      simp [hmap]

theorem cancel_reservation_result_witness :
    ((cancelDb.cancel_reservation "res1").2).cancel_reservation "res1" =
      (true, (cancelDb.cancel_reservation "res1").2) :=
  (cancel_reservation_result cancelDb "res1").2.2 _ rfl

/-- C9: cancelling an existing reservation keeps the restaurants untouched,
removes nothing from the reservations store, rewrites only the status field of
the cancelled reservation (so `get_reservation` afterwards returns the same
record with status `"cancelled"`), and leaves every other reservation
observable unchanged. -/
theorem cancel_reservation_frame (db : RestaurantDatabase) (reservation_id : String)
    (r : Reservation) (hr : db.get_reservation reservation_id = some r) :
    (db.cancel_reservation reservation_id).2.restaurants = db.restaurants ∧
    (db.cancel_reservation reservation_id).2.reservations.length =
      db.reservations.length ∧
    (db.cancel_reservation reservation_id).2.get_reservation reservation_id =
      some { r with status := "cancelled" } ∧
    (∀ other_id : String, other_id ≠ reservation_id →
      (db.cancel_reservation reservation_id).2.get_reservation other_id =
        db.get_reservation other_id) := by
  have hf : db.reservations.find? (fun x => x.id == reservation_id) = some r := hr
  have hrid : r.id = reservation_id := by simpa using List.find?_some hf
  rw [RestaurantDatabase.cancel_reservation]
  simp only [hf]
  refine ⟨by simp, by simp, ?_, ?_⟩
  · show (db.reservations.map (cancelUpdate reservation_id)).find?
        (fun x => x.id == reservation_id) = _
    rw [find?_map_cancelUpdate, hf]
    simp [cancelUpdate, hrid]
  · intro other_id hne
    show (db.reservations.map (cancelUpdate reservation_id)).find?
        (fun x => x.id == other_id) = db.get_reservation other_id
    rw [find?_map_cancelUpdate, RestaurantDatabase.get_reservation]
    rcases ho : db.reservations.find? (fun x => x.id == other_id) with _ | r2
    · rw [ho]
      rfl
    · rw [ho]
      have hr2 : r2.id = other_id := by simpa using List.find?_some ho
      simp [cancelUpdate, hr2, hne]

theorem cancel_reservation_frame_witness :
    cancelDb.get_reservation "res1" = some aliceReservation ∧
      (cancelDb.cancel_reservation "res1").2.get_reservation "res1" =
        some { aliceReservation with status := "cancelled" } :=
  ⟨rfl, (cancel_reservation_frame cancelDb "res1" aliceReservation rfl).2.2.1⟩

/-- C4: `check_availability` returns `false` for an unknown restaurant and for
a party size exceeding the seating capacity; otherwise it returns `true`
exactly when the confirmed sum at the exact (restaurant, date, time) slot plus
the party size stays within the capacity.  Reservations whose time string
differs contribute nothing to the slot sum. -/
theorem check_availability_spec (db : RestaurantDatabase) (rid d t : String) (p : Int) :
    (db.get_restaurant rid = none → db.check_availability rid d t p = false) ∧
    (∀ r : Restaurant, db.get_restaurant rid = some r →
      r.seating_capacity < p → db.check_availability rid d t p = false) ∧
    (∀ r : Restaurant, db.get_restaurant rid = some r → p ≤ r.seating_capacity →
      (db.check_availability rid d t p = true ↔
        total_reserved db.reservations rid d t + p ≤ r.seating_capacity)) ∧
    (∀ res : Reservation, res.time ≠ t →
      total_reserved (db.reservations ++ [res]) rid d t =
        total_reserved db.reservations rid d t) := by
  refine ⟨?_, ?_, ?_, ?_⟩
  · intro hg
    rw [RestaurantDatabase.check_availability, hg]
  · intro r hg hlt
    rw [RestaurantDatabase.check_availability, hg]
    simp [hlt]
  · intro r hg hle
    rw [RestaurantDatabase.check_availability, hg]
    simp [not_lt.mpr hle]
  · intro res hne
    rw [total_reserved_append]
    have hm : matchesSlot rid d t res = false := by
      simp [matchesSlot, hne]
    simp [hm]

theorem check_availability_spec_witness :
    witnessDb.get_restaurant "zzz" = none ∧
      witnessDb.check_availability "zzz" "2025-06-01" "19:00" 2 = false :=
  ⟨rfl, (check_availability_spec witnessDb "zzz" "2025-06-01" "19:00" 2).1 rfl⟩

/-- C7: `search_restaurants` returns a sublist of the stored restaurants whose
members are exactly those satisfying every supplied (truthy) criterion —
cuisine and location by case-insensitive exact equality, party size by
capacity, and availability when both date and time are supplied (party size
defaulting to 1 when unset) — and returns the empty list when nothing
matches.  It is a total function, so it never raises an error. -/
theorem search_restaurants_spec (db : RestaurantDatabase)
    (cuisine location : Option String) (party_size : Option Int)
    (date time : Option String) :
    (db.search_restaurants cuisine location party_size date time).Sublist
      db.restaurants ∧
    (∀ r : Restaurant,
      r ∈ db.search_restaurants cuisine location party_size date time ↔
        r ∈ db.restaurants ∧
        ((truthyStr cuisine = true → pyLower r.cuisine = pyLower (cuisine.getD "")) ∧
         (truthyStr location = true → pyLower r.location = pyLower (location.getD "")) ∧
         (truthyInt party_size = true → party_size.getD 0 ≤ r.seating_capacity) ∧
         ((truthyStr date && truthyStr time) = true →
           db.check_availability r.id (date.getD "") (time.getD "")
             (orInt party_size 1) = true))) ∧
    ((∀ r ∈ db.restaurants,
        ¬((truthyStr cuisine = true → pyLower r.cuisine = pyLower (cuisine.getD "")) ∧
          (truthyStr location = true → pyLower r.location = pyLower (location.getD "")) ∧
          (truthyInt party_size = true → party_size.getD 0 ≤ r.seating_capacity) ∧
          ((truthyStr date && truthyStr time) = true →
            db.check_availability r.id (date.getD "") (time.getD "")
              (orInt party_size 1) = true))) →
      db.search_restaurants cuisine location party_size date time = []) := by
  have hmem : ∀ r : Restaurant,
      r ∈ db.search_restaurants cuisine location party_size date time ↔
        r ∈ db.restaurants ∧
        ((truthyStr cuisine = true → pyLower r.cuisine = pyLower (cuisine.getD "")) ∧
         (truthyStr location = true → pyLower r.location = pyLower (location.getD "")) ∧
         (truthyInt party_size = true → party_size.getD 0 ≤ r.seating_capacity) ∧
         ((truthyStr date && truthyStr time) = true →
           db.check_availability r.id (date.getD "") (time.getD "")
             (orInt party_size 1) = true)) := by
    intro r
    by_cases h1 : truthyStr cuisine = true <;>
      by_cases h2 : truthyStr location = true <;>
      by_cases h3 : truthyInt party_size = true <;>
      by_cases h4 : (truthyStr date && truthyStr time) = true <;>
      simp [RestaurantDatabase.search_restaurants, h1, h2, h3, h4,
        List.mem_filter, and_assoc] <;> tauto
  have hsub : ∀ (b : Bool) (p : Restaurant → Bool) (l : List Restaurant),
      (if b then l.filter p else l).Sublist l := by
    intro b p l
    cases b
    · simp
    · simp [List.filter_sublist l]
  refine ⟨?_, hmem, ?_⟩
  · simp only [RestaurantDatabase.search_restaurants]
    exact (hsub _ _ _).trans ((hsub _ _ _).trans ((hsub _ _ _).trans (hsub _ _ _)))
  · intro hnone
    rw [List.eq_nil_iff_forall_not_mem]
    intro r hr
    rcases (hmem r).mp hr with ⟨hrdb, hconds⟩
    exact hnone r hrdb hconds

def frenchBistro : Restaurant :=
  ⟨"r2", "Bistro", "French", "Uptown", "2 Side St", 6, [], "$$$", 4.1, "Quiet"⟩

def searchDb : RestaurantDatabase := ⟨[witnessRestaurant, frenchBistro], []⟩

theorem search_restaurants_spec_witness :
    (witnessRestaurant ∈ searchDb.search_restaurants (some "italian") (some "DOWNTOWN")
        none none none ↔
      witnessRestaurant ∈ searchDb.restaurants ∧
        ((truthyStr (some "italian") = true →
            pyLower witnessRestaurant.cuisine = pyLower ((some "italian").getD "")) ∧
         (truthyStr (some "DOWNTOWN") = true →
            pyLower witnessRestaurant.location = pyLower ((some "DOWNTOWN").getD "")) ∧
         (truthyInt none = true → (none : Option Int).getD 0 ≤ witnessRestaurant.seating_capacity) ∧
         ((truthyStr none && truthyStr none) = true →
            searchDb.check_availability witnessRestaurant.id ((none : Option String).getD "")
              ((none : Option String).getD "") (orInt none 1) = true))) ∧
      witnessRestaurant ∈ searchDb.search_restaurants (some "italian") (some "DOWNTOWN")
        none none none :=
  ⟨(search_restaurants_spec searchDb (some "italian") (some "DOWNTOWN") none none none).2.1
      witnessRestaurant,
    by
      have h : searchDb.search_restaurants (some "italian") (some "DOWNTOWN")
          none none none = [witnessRestaurant] := rfl
      rw [h]
      exact List.mem_singleton.mpr rfl⟩

/-- The optional preference fields of the `get_recommendations` tool. -/
structure Preferences where
  cuisine : Option String := none
  location : Option String := none
  price_range : Option String := none
  min_rating : Option Rat := none
deriving DecidableEq

/-- Python `"k" in preferences and preferences["k"]` for a string-valued
preference: present and non-empty. -/
def prefStr (o : Option String) : Bool := truthyStr o

/-- Python `"min_rating" in preferences and preferences["min_rating"]`: a
missing or `0.0` minimum rating is falsy. -/
def prefRat : Option Rat → Bool
  | none => false
  | some q => !(q == 0)

/-- The sequential preference filters at the top of
`MCPServer._get_recommendations`. -/
def recommendationFilter (preferences : Preferences) (rs : List Restaurant) :
    List Restaurant :=
  let filtered := rs
  let filtered := if prefStr preferences.cuisine then
      filtered.filter (fun r =>
        pyLower r.cuisine == pyLower (preferences.cuisine.getD ""))
    else filtered
  let filtered := if prefStr preferences.location then
      filtered.filter (fun r =>
        pyLower r.location == pyLower (preferences.location.getD ""))
    else filtered
  let filtered := if prefStr preferences.price_range then
      filtered.filter (fun r => r.price_range == preferences.price_range.getD "")
    else filtered
  let filtered := if prefRat preferences.min_rating then
      filtered.filter (fun r => decide (preferences.min_rating.getD 0 ≤ r.rating))
    else filtered
  filtered

/-- `MCPServer._calculate_recommendation_score`. -/
def calculate_recommendation_score (restaurant : Restaurant)
    (preferences : Preferences) : Rat :=
  let score : Rat := 0 + restaurant.rating
  let score := score + (if prefStr preferences.cuisine &&
      (pyLower restaurant.cuisine == pyLower (preferences.cuisine.getD ""))
    then 3 else 0)
  let score := score + (if prefStr preferences.location &&
      (pyLower restaurant.location == pyLower (preferences.location.getD ""))
    then 2 else 0)
  let score := score + (if prefStr preferences.price_range &&
      (restaurant.price_range == preferences.price_range.getD "")
    then 1 else 0)
  let score := score + (if (4.5 : Rat) ≤ restaurant.rating then 2
    else if (4 : Rat) ≤ restaurant.rating then 1 else 0)
  score

/-- The descending comparison of `scored_restaurants.sort(key=..., reverse=True)`. -/
def scoreGe (a b : Restaurant × Rat) : Prop := b.2 ≤ a.2

instance : DecidableRel scoreGe :=
  fun a b => inferInstanceAs (Decidable (b.2 ≤ a.2))

instance : IsTotal (Restaurant × Rat) scoreGe := ⟨fun a b => le_total b.2 a.2⟩

instance : IsTrans (Restaurant × Rat) scoreGe := ⟨fun _ _ _ h1 h2 => le_trans h2 h1⟩

/-- The scored list, stable descending sort and `[:10]` truncation of
`MCPServer._get_recommendations`.  Python's `list.sort` is a stable sort and a
stable sort is uniquely determined by its comparison, so insertion sort with
`scoreGe` realises it. -/
def recommendationRanking (db : RestaurantDatabase) (preferences : Preferences) :
    List (Restaurant × Rat) :=
  let scored := (recommendationFilter preferences db.restaurants).map
    (fun r => (r, calculate_recommendation_score r preferences))
  (List.insertionSort scoreGe scored).take 10

/-- Modelled from the spec: the additive scoring formula exactly as the spec
words it — rating, plus 3.0 for a case-insensitive cuisine match, plus 2.0 for
a location match, plus 1.0 for an exact price-tier match, plus 2.0 when the
rating is at least 4.5 and otherwise 1.0 when it is at least 4.0. -/
def spec_recommendation_score (restaurant : Restaurant)
    (preferences : Preferences) : Rat :=
  restaurant.rating
  + (if prefStr preferences.cuisine &&
      (pyLower restaurant.cuisine == pyLower (preferences.cuisine.getD ""))
    then 3 else 0)
  + (if prefStr preferences.location &&
      (pyLower restaurant.location == pyLower (preferences.location.getD ""))
    then 2 else 0)
  + (if prefStr preferences.price_range &&
      (restaurant.price_range == preferences.price_range.getD "")
    then 1 else 0)
  + (if (4.5 : Rat) ≤ restaurant.rating then 2
    else if (4 : Rat) ≤ restaurant.rating then 1 else 0)

theorem keyFilter_orderedInsert (q : Rat) (x : Restaurant × Rat)
    (l : List (Restaurant × Rat)) :
    (List.orderedInsert scoreGe x l).filter (fun p => p.2 == q) =
      (if x.2 == q then [x] else []) ++ l.filter (fun p => p.2 == q) := by
  induction l with
  | nil => simp [List.orderedInsert, List.filter_cons]
  | cons b t ih =>
    by_cases hxb : scoreGe x b
    · simp only [List.orderedInsert, if_pos hxb, List.filter_cons]
      by_cases hx : (x.2 == q) = true <;> simp [hx]
    · have hlt : x.2 < b.2 := lt_of_not_le (fun h => hxb h)
      simp only [List.orderedInsert, if_neg hxb, List.filter_cons]
      by_cases hb : (b.2 == q) = true
      · by_cases hx : (x.2 == q) = true
        · exfalso
          rw [beq_iff_eq] at hb hx
          exact absurd (hx.trans hb.symm) (ne_of_lt hlt)
        · simp [hb, hx, ih]
      · simp [hb, ih]

theorem keyFilter_insertionSort (q : Rat) (l : List (Restaurant × Rat)) :
    (List.insertionSort scoreGe l).filter (fun p => p.2 == q) =
      l.filter (fun p => p.2 == q) := by
  induction l with
  | nil => rfl
  | cons x t ih =>
    simp only [List.insertionSort]
    rw [keyFilter_orderedInsert, ih, List.filter_cons]
    by_cases hx : (x.2 == q) = true <;> simp [hx]

/-- C6: every candidate surviving the preference filters is scored by the
claimed additive formula; the ranking truncates to at most ten entries a
permutation of the scored candidates along which scores are nonincreasing, and
candidates of equal score keep their original relative order (the sorted and
the original lists agree once filtered to any fixed score). -/
theorem recommendation_ranking_spec (db : RestaurantDatabase)
    (preferences : Preferences) :
    (∀ r ∈ recommendationFilter preferences db.restaurants,
      calculate_recommendation_score r preferences =
        spec_recommendation_score r preferences) ∧
    (recommendationRanking db preferences).length ≤ 10 ∧
    List.Pairwise scoreGe (recommendationRanking db preferences) ∧
    (List.insertionSort scoreGe ((recommendationFilter preferences db.restaurants).map
        (fun r => (r, calculate_recommendation_score r preferences)))).Perm
      ((recommendationFilter preferences db.restaurants).map
        (fun r => (r, calculate_recommendation_score r preferences))) ∧
    (∀ q : Rat,
      (List.insertionSort scoreGe ((recommendationFilter preferences db.restaurants).map
          (fun r => (r, calculate_recommendation_score r preferences)))).filter
          (fun p => p.2 == q) =
        ((recommendationFilter preferences db.restaurants).map
          (fun r => (r, calculate_recommendation_score r preferences))).filter
          (fun p => p.2 == q)) := by
  refine ⟨?_, ?_, ?_, ?_, ?_⟩
  · intro r _
    simp only [calculate_recommendation_score, spec_recommendation_score, zero_add]
  · simp only [recommendationRanking]
    rw [List.length_take]
    exact min_le_left _ _
  · simp only [recommendationRanking]
    exact List.Pairwise.sublist (List.take_sublist _ _)
      (List.sorted_insertionSort scoreGe _)
  · exact List.perm_insertionSort scoreGe _
  · intro q
    exact keyFilter_insertionSort q _

theorem recommendation_ranking_spec_witness :
    witnessRestaurant ∈ recommendationFilter {} searchDb.restaurants ∧
      calculate_recommendation_score witnessRestaurant {} =
        spec_recommendation_score witnessRestaurant {} := by
  have hmem : witnessRestaurant ∈ recommendationFilter {} searchDb.restaurants := by
    have h : recommendationFilter {} searchDb.restaurants =
        [witnessRestaurant, frenchBistro] := rfl
    rw [h]
    exact List.mem_cons_self _ _
  exact ⟨hmem, (recommendation_ranking_spec searchDb {}).1 witnessRestaurant hmem⟩

/-! ### Tool Dispatcher (`mcp_server/server.py`) -/

/-- The argument dictionary of a tool call, one optional slot per key read by
the tool handlers via `arguments.get(...)`; `preferences` defaults to the
empty dictionary exactly as `arguments.get("preferences", {})` does. -/
structure ToolArguments where
  cuisine : Option String := none
  location : Option String := none
  party_size : Option Int := none
  date : Option String := none
  time : Option String := none
  restaurant_id : Option String := none
  customer_name : Option String := none
  reservation_id : Option String := none
  preferences : Preferences := {}
deriving DecidableEq

/-- Rendering of one restaurant record inside a result payload.  The JSON
pretty-printing of the source is abstracted to a field concatenation; no claim
depends on this text, only on which branch produced it. -/
def formatRestaurant (r : Restaurant) : String :=
  r.id ++ "|" ++ r.name ++ "|" ++ r.cuisine ++ "|" ++ r.location ++ "|" ++
    r.address ++ "|" ++ toString r.seating_capacity ++ "|" ++ r.price_range ++
    "|" ++ toString r.rating ++ "|" ++ r.description

/-- `MCPServer._search_restaurants` (tool handler): read-only. -/
def tool_search_restaurants (db : RestaurantDatabase) (args : ToolArguments) : String :=
  let results := db.search_restaurants args.cuisine args.location args.party_size
    args.date args.time
  if results.isEmpty then
    "No restaurants found matching your criteria."
  else
    let n := toString results.length
    let body := String.intercalate "\n" (results.map formatRestaurant)
    "Found " ++ n ++ " restaurant(s):\n\n" ++ body

/-- The fixed probe list of `_get_alternative_times`. -/
def time_slots : List String :=
  ["11:00", "11:30", "12:00", "12:30", "13:00", "13:30",
   "17:00", "17:30", "18:00", "18:30", "19:00", "19:30",
   "20:00", "20:30", "21:00", "21:30"]

/-- The collection loop of `_get_alternative_times`: walk the probe list in
order, keep slots other than the requested one that pass
`check_availability`, and stop once `k` more would exceed the cap of three. -/
def collectAlternatives (db : RestaurantDatabase)
    (restaurant_id date requested_time : String) (party_size : Int) :
    List String → Nat → List String
  | [], _ => []
  | s :: rest, k =>
    if k == 0 then []
    else if s != requested_time &&
        db.check_availability restaurant_id date s party_size then
      if k == 1 then [s]
      else s :: collectAlternatives db restaurant_id date requested_time party_size
        rest (k - 1)
    else collectAlternatives db restaurant_id date requested_time party_size rest k

/-- `MCPServer._get_alternative_times`: up to three alternatives in probe order. -/
def get_alternative_times (db : RestaurantDatabase)
    (restaurant_id date requested_time : String) (party_size : Int) : List String :=
  collectAlternatives db restaurant_id date requested_time party_size time_slots 3

/-- `MCPServer._get_availability` (tool handler): read-only; `all([...])`
requires every required argument to be truthy. -/
def tool_get_availability (db : RestaurantDatabase) (args : ToolArguments) : String :=
  if !(truthyStr args.restaurant_id && truthyStr args.date && truthyStr args.time &&
      truthyInt args.party_size) then
    "Missing required parameters: restaurant_id, date, time, party_size"
  else
    let restaurant_id := args.restaurant_id.getD ""
    let date := args.date.getD ""
    let time := args.time.getD ""
    let party_size := args.party_size.getD 0
    if db.check_availability restaurant_id date time party_size then
      "Restaurant is available for " ++ toString party_size ++ " guests on " ++
        date ++ " at " ++ time ++ "."
    else
      let alternative_times := get_alternative_times db restaurant_id date time party_size
      if !alternative_times.isEmpty then
        let times_str := String.intercalate ", " alternative_times
        "Restaurant is not available at " ++ time ++ ". Alternative times: " ++ times_str
      else
        "Restaurant is not available for " ++ toString party_size ++ " guests on " ++
          date ++ "."

/-- `MCPServer._make_reservation` (tool handler): the content text together
with the possibly-updated store. -/
def tool_make_reservation (db : RestaurantDatabase) (args : ToolArguments)
    (new_id : String) (now : Nat) : String × RestaurantDatabase :=
  if !(truthyStr args.restaurant_id && truthyStr args.date && truthyStr args.time &&
      truthyInt args.party_size && truthyStr args.customer_name) then
    ("Missing required parameters: restaurant_id, date, time, party_size, customer_name",
      db)
  else
    let restaurant_id := args.restaurant_id.getD ""
    match db.get_restaurant restaurant_id with
    | none => ("Restaurant not found: " ++ restaurant_id, db)
    | some restaurant =>
      let date := args.date.getD ""
      let time := args.time.getD ""
      let party_size := args.party_size.getD 0
      let customer_name := args.customer_name.getD ""
      match db.create_reservation restaurant_id date time party_size customer_name
          new_id now with
      | (some reservation, db2) =>
        ("Reservation confirmed!\n\n" ++ reservation.id ++ "|" ++ restaurant.name ++
          "|" ++ reservation.date ++ "|" ++ reservation.time ++ "|" ++
          toString reservation.party_size ++ "|" ++ reservation.customer_name ++
          "|" ++ reservation.status, db2)
      | (none, db2) =>
        ("Unable to create reservation. Restaurant is not available for " ++
          toString party_size ++ " guests on " ++ date ++ " at " ++ time ++ ".", db2)

/-- `MCPServer._cancel_reservation` (tool handler). -/
def tool_cancel_reservation (db : RestaurantDatabase) (args : ToolArguments) :
    String × RestaurantDatabase :=
  if !(truthyStr args.reservation_id) then
    ("Missing required parameter: reservation_id", db)
  else
    let reservation_id := args.reservation_id.getD ""
    match db.get_reservation reservation_id with
    | none => ("Reservation not found: " ++ reservation_id, db)
    | some reservation =>
      match db.cancel_reservation reservation_id with
      | (true, db2) =>
        let restaurant_name := match db.get_restaurant reservation.restaurant_id with
          | some restaurant => restaurant.name
          | none => "Unknown"
        ("Reservation " ++ reservation_id ++ " has been cancelled.\n\nDetails:\n- Restaurant: " ++
          restaurant_name ++ "\n- Date: " ++ reservation.date ++ "\n- Time: " ++
          reservation.time ++ "\n- Party size: " ++ toString reservation.party_size, db2)
      | (false, db2) => ("Failed to cancel reservation: " ++ reservation_id, db2)

/-- `MCPServer._get_recommendations` (tool handler): read-only. -/
def tool_get_recommendations (db : RestaurantDatabase) (args : ToolArguments) : String :=
  let top_recommendations := recommendationRanking db args.preferences
  if top_recommendations.isEmpty then
    "No restaurants found matching your preferences."
  else
    let n := toString top_recommendations.length
    let body := String.intercalate "\n"
      (top_recommendations.map (fun p => formatRestaurant p.1))
    "Top " ++ n ++ " recommendations:\n\n" ++ body

/-- `MCPServer.call_tool`: route by the inner tool name; an unknown (or
missing) name raises `ValueError`, modelled as `Except.error`. -/
def call_tool (db : RestaurantDatabase) (tool_name : Option String)
    (arguments : ToolArguments) (new_id : String) (now : Nat) :
    Except String (String × RestaurantDatabase) :=
  if tool_name == some "search_restaurants" then
    Except.ok (tool_search_restaurants db arguments, db)
  else if tool_name == some "get_availability" then
    Except.ok (tool_get_availability db arguments, db)
  else if tool_name == some "make_reservation" then
    Except.ok (tool_make_reservation db arguments new_id now)
  else if tool_name == some "cancel_reservation" then
    Except.ok (tool_cancel_reservation db arguments)
  else if tool_name == some "get_recommendations" then
    Except.ok (tool_get_recommendations db arguments, db)
  else
    Except.error ("Unknown tool: " ++
      (match tool_name with | some s => s | none => "None"))

/-- `MCPServer.read_resource`; unknown URIs raise `ValueError` and a missing
uri raises an attribute error, both modelled as `Except.error`. -/
def read_resource (db : RestaurantDatabase) (uri : Option String) :
    Except String (List String) :=
  match uri with
  | none => Except.error "NoneType object has no attribute startswith"
  | some u =>
    if u == "restaurants://list" then
      Except.ok (db.restaurants.map formatRestaurant)
    else if "restaurants://".isPrefixOf u then
      let restaurant_id := u.replace "restaurants://" ""
      match db.get_restaurant restaurant_id with
      | none => Except.error ("Restaurant not found: " ++ restaurant_id)
      | some r => Except.ok [formatRestaurant r]
    else Except.error ("Unknown resource URI: " ++ u)

/-- The result payloads of the four dispatcher methods: the tool catalog, the
resource catalog, a tool-call content envelope (a single text block in the
source), or resource contents. -/
inductive MCPResult where
  | toolsList : List String → MCPResult
  | resourcesList : List String → MCPResult
  | content : String → MCPResult
  | contents : List String → MCPResult
deriving DecidableEq

/-- The names in the catalog `MCPServer._define_tools` returns. -/
def tool_catalog : List String :=
  ["search_restaurants", "get_availability", "make_reservation",
   "cancel_reservation", "get_recommendations"]

/-- The URIs in the catalog `MCPServer._define_resources` returns. -/
def resource_catalog : List String :=
  ["restaurants://list", "restaurants://\x7bid\x7d"]

/-- A dispatcher request: method name, request id and the parameter fields the
dispatcher reads (`params.get("name")`, `params.get("arguments", {})`,
`params.get("uri")`). -/
structure MCPRequest where
  method : Option String := none
  id : Option Int := none
  params_name : Option String := none
  params_arguments : ToolArguments := {}
  params_uri : Option String := none
deriving DecidableEq

/-- A dispatcher response: the mirrored request id and either a result or an
error (code, message). -/
structure MCPResponse where
  id : Option Int
  result : Option MCPResult
  error : Option (Int × String)
deriving DecidableEq

/-- `MCPServer.handle_request`: route on the method name; unknown methods get
a −32601 error, an exception inside a known handler a −32603 error, and every
response carries the request id.  The store is returned unchanged on error
paths. -/
def handle_request (db : RestaurantDatabase) (req : MCPRequest)
    (new_id : String) (now : Nat) : MCPResponse × RestaurantDatabase :=
  if req.method == some "tools/list" then
    (⟨req.id, some (MCPResult.toolsList tool_catalog), none⟩, db)
  else if req.method == some "tools/call" then
    match call_tool db req.params_name req.params_arguments new_id now with
    | Except.ok (text, db2) => (⟨req.id, some (MCPResult.content text), none⟩, db2)
    | Except.error e => (⟨req.id, none, some (-32603, "Internal error: " ++ e)⟩, db)
  else if req.method == some "resources/list" then
    (⟨req.id, some (MCPResult.resourcesList resource_catalog), none⟩, db)
  else if req.method == some "resources/read" then
    match read_resource db req.params_uri with
    | Except.ok texts => (⟨req.id, some (MCPResult.contents texts), none⟩, db)
    | Except.error e => (⟨req.id, none, some (-32603, "Internal error: " ++ e)⟩, db)
  else
    (⟨req.id, none, some (-32601, "Method not found: " ++
      (match req.method with | some s => s | none => "None"))⟩, db)

/-- The four dispatcher methods `handle_request` recognises. -/
def knownMethod (m : Option String) : Bool :=
  m == some "tools/list" || m == some "tools/call" ||
    m == some "resources/list" || m == some "resources/read"

/-- C8: every dispatcher response carries the request's id; a method outside
the four known ones yields a −32601 error with no result; a known method
yields either a result with no error or, when the handler raised, a −32603
error with no result; and for `tools/call` the −32603 error appears exactly
when `call_tool` raised. -/
theorem handle_request_envelope (db : RestaurantDatabase) (req : MCPRequest)
    (new_id : String) (now : Nat) :
    ((handle_request db req new_id now).1.id = req.id) ∧
    (knownMethod req.method = false →
      ∃ msg, (handle_request db req new_id now).1 = ⟨req.id, none, some (-32601, msg)⟩) ∧
    (knownMethod req.method = true →
      (∃ res, (handle_request db req new_id now).1 = ⟨req.id, some res, none⟩) ∨
      (∃ msg, (handle_request db req new_id now).1 = ⟨req.id, none, some (-32603, msg)⟩)) ∧
    (req.method = some "tools/call" →
      ((handle_request db req new_id now).1.error ≠ none ↔
        ∃ e, call_tool db req.params_name req.params_arguments new_id now =
          Except.error e)) := by
  by_cases h1 : req.method = some "tools/list"
  · simp [handle_request, knownMethod, h1]
  · by_cases h2 : req.method = some "tools/call"
    · rcases hct : call_tool db req.params_name req.params_arguments new_id now with e | pr
      · simp [handle_request, knownMethod, h1, h2, hct]
      · rcases pr with ⟨text, db2⟩
        simp [handle_request, knownMethod, h1, h2, hct]
    · by_cases h3 : req.method = some "resources/list"
      · simp [handle_request, knownMethod, h1, h2, h3]
      · by_cases h4 : req.method = some "resources/read"
        · rcases hrr : read_resource db req.params_uri with e | texts
          · simp [handle_request, knownMethod, h1, h2, h3, h4, hrr]
          · simp [handle_request, knownMethod, h1, h2, h3, h4, hrr]
        · simp [handle_request, knownMethod, h1, h2, h3, h4]

theorem handle_request_envelope_witness :
    knownMethod (some "nope") = false ∧
      ∃ msg, (handle_request witnessDb { method := some "nope", id := some 7 } "x" 0).1 =
        ⟨some 7, none, some (-32601, msg)⟩ :=
  ⟨rfl, (handle_request_envelope witnessDb { method := some "nope", id := some 7 }
    "x" 0).2.1 rfl⟩

/-- C10: in the `get_availability` and `make_reservation` tool handlers a
required argument that is absent or falsy (`party_size` equal to 0, or an
empty string for a string field) short-circuits to the missing-parameters
content message and the Capacity Store is not touched; a falsy supplied value
is indistinguishable from an absent one under the handlers' truthiness test. -/
theorem missing_falsy_arguments (db : RestaurantDatabase) (args : ToolArguments)
    (new_id : String) (now : Nat) :
    ((truthyStr args.restaurant_id && truthyStr args.date && truthyStr args.time &&
        truthyInt args.party_size) = false →
      tool_get_availability db args =
        "Missing required parameters: restaurant_id, date, time, party_size") ∧
    ((truthyStr args.restaurant_id && truthyStr args.date && truthyStr args.time &&
        truthyInt args.party_size && truthyStr args.customer_name) = false →
      tool_make_reservation db args new_id now =
        ("Missing required parameters: restaurant_id, date, time, party_size, customer_name",
          db)) ∧
    truthyInt (some 0) = truthyInt none ∧ truthyStr (some "") = truthyStr none := by
  refine ⟨?_, ?_, rfl, rfl⟩
  · intro h
    simp [tool_get_availability, h]
  · intro h
    simp [tool_make_reservation, h]

/-- Arguments where every required field is supplied but `party_size` is the
falsy `0`. -/
def argsPartyZero : ToolArguments :=
  { restaurant_id := some "r1", date := some "2025-06-01", time := some "19:00",
    party_size := some 0, customer_name := some "Alice" }

theorem missing_falsy_arguments_witness :
    (truthyStr argsPartyZero.restaurant_id && truthyStr argsPartyZero.date &&
        truthyStr argsPartyZero.time && truthyInt argsPartyZero.party_size) = false ∧
      tool_get_availability witnessDb argsPartyZero =
        "Missing required parameters: restaurant_id, date, time, party_size" :=
  ⟨rfl, (missing_falsy_arguments witnessDb argsPartyZero "x" 0).1 rfl⟩

/-! ### Conversation Orchestrator (`agent/agent.py`) -/

/-- A tool-call directive from the gateway: id, function name and parsed
argument payload (`none` models a JSON parse failure, degraded to `{}` by the
loop). -/
structure ToolCall where
  id : Option String := none
  name : Option String := none
  arguments : Option ToolArguments := none
deriving DecidableEq

/-- A conversation-history entry (the source uses role-tagged dictionaries;
an assistant entry may carry tool-call directives, a tool entry carries the
directive id it answers). -/
inductive ChatMessage where
  | system : String → ChatMessage
  | user : String → ChatMessage
  | assistant : String → ChatMessage
  | assistantToolCalls : String → List ToolCall → ChatMessage
  | tool : Option String → String → ChatMessage
deriving DecidableEq

/-- `m.get("content")` over a history entry (every entry built by the agent
carries a content string). -/
def ChatMessage.content : ChatMessage → String
  | .system c => c
  | .user c => c
  | .assistant c => c
  | .assistantToolCalls c _ => c
  | .tool _ c => c

/-- Python `str.strip()` (the whitespace encountered here is covered by
`Char.isWhitespace`). -/
def pyStrip (s : String) : String :=
  ⟨((s.data.dropWhile Char.isWhitespace).reverse.dropWhile Char.isWhitespace).reverse⟩

/-- Python `\w` on the ASCII inputs of this system: letters, digits,
underscore. -/
def isWordChar (c : Char) : Bool := c.isAlphanum || c == '_'

/-- A regex word boundary just before position `j`, for a pattern whose first
character is a word character: start of string or a preceding non-word
character. -/
def boundaryBefore (cs : List Char) (j : Nat) : Bool :=
  j == 0 || !(isWordChar (cs.getD (j - 1) ' '))

/-- A regex word boundary just after a match ending at exclusive position `k`
whose last character is a word character: end of string or a following
non-word character. -/
def boundaryAfter (cs : List Char) (k : Nat) : Bool :=
  k == cs.length || !(isWordChar (cs.getD k ' '))

/-- Python `needle in hay` substring containment: the needle is a prefix of
some suffix of the haystack. -/
def containsSub (needle : List Char) : List Char → Bool
  | [] => needle.isEmpty
  | c :: t => needle.isPrefixOf (c :: t) || containsSub needle t

/-- The hedging alternatives of the vague-recommendation pattern. -/
def hedgeWords : List String :=
  ["any", "anything", "anymore", "any other", "anything else", "more"]

/-- The keyword alternatives of the vague-recommendation pattern. -/
def recoWords : List String := ["recommendation", "recommendations", "suggestions"]

/-- Semantics of `re.search` for the anchored pattern
`^(any|anything|anymore|any other|anything else|more)\b.*\b(recommendation|recommendations|suggestions)`:
some hedging alternative is a prefix of the message followed by a word
boundary, and some keyword occurs at or after the end of that prefix behind a
word boundary, with no newline in the gap (`.` does not match newlines). -/
def moreRecoMatch (msg : String) : Bool :=
  let cs := msg.data
  hedgeWords.any (fun a =>
    a.data.isPrefixOf cs && boundaryAfter cs a.length &&
      (List.range (cs.length + 1)).any (fun j =>
        decide (a.length ≤ j) && boundaryBefore cs j &&
          ((cs.drop a.length).take (j - a.length)).all (fun c => c != '\n') &&
          recoWords.any (fun w => w.data.isPrefixOf (cs.drop j))))

/-- The alternatives of the personal-name pattern. -/
def namePatternWords : List String := ["your name", "your full name", "who are you"]

/-- Semantics of `re.search` for `\b(your name|your full name|who are you)\b`. -/
def namePatternMatch (msg : String) : Bool :=
  let cs := msg.data
  (List.range (cs.length + 1)).any (fun j =>
    boundaryBefore cs j &&
      namePatternWords.any (fun w =>
        w.data.isPrefixOf (cs.drop j) && boundaryAfter cs (j + w.length)))

/-- The number of `re.findall(r"\w+", msg)` tokens: maximal word-character
runs, counted by their start positions. -/
def wordTokenCount (cs : List Char) : Nat :=
  (List.range cs.length).countP (fun i =>
    isWordChar (cs.getD i ' ') &&
      (i == 0 || !(isWordChar (cs.getD (i - 1) ' '))))

/-- The canned clarifying responses of `_is_out_of_context` (verbatim source
strings). -/
def empty_input_response : String :=
  "Could you please clarify your request? I didn\x27t catch that."

def more_reco_similar_response : String :=
  "Do you want more recommendations similar to the ones I showed earlier, or would you like to change your preferences (cuisine, location, price)?"

def more_reco_fresh_response : String :=
  "What kind of recommendations are you looking for? Cuisine, location, or price range?"

def agent_name_response : String :=
  "I don\x27t have a personal name. If you\x27d like to make a reservation, please provide the customer\x27s full name to use for the booking."

def short_input_response : String :=
  "Could you please provide a bit more detail so I can help? For example, which cuisine or area are you interested in?"

/-- `ReservationAgent._is_out_of_context`: the local short-circuit heuristic,
returning the flag and the canned clarifying response. -/
def is_out_of_context (history : List ChatMessage) (user_message : String) :
    Bool × Option String :=
  if user_message == "" || pyStrip user_message == "" then
    (true, some empty_input_response)
  else
    let msg := pyLower (pyStrip user_message)
    if moreRecoMatch msg then
      let prev_has_reco := history.any (fun m =>
        containsSub "recommend".data (pyLower m.content).data)
      if prev_has_reco then (true, some more_reco_similar_response)
      else (true, some more_reco_fresh_response)
    else if namePatternMatch msg then
      (true, some agent_name_response)
    else if wordTokenCount msg.data ≤ 2 ∧ (msg.endsWith "?" ∨ msg.length < 15) then
      (true, some short_input_response)
    else
      (false, none)

/-- `ReservationAgent.SYSTEM_MESSAGE` content, verbatim from the source. -/
def system_message_content : String :=
  "You are a helpful restaurant reservation assistant. Your role is to help users find restaurants, check availability, make reservations, and get recommendations.\n\n" ++
  "SCOPE ENFORCEMENT - CRITICAL:\n" ++
  "1. ONLY answer questions related to restaurants, reservations, dining, and food\n" ++
  "2. If asked about topics outside your scope (weather, sports, general knowledge, personal information, etc.), politely refuse and redirect:\n" ++
  "   - Example: \"I\x27m a restaurant reservation assistant and can only help with finding restaurants and making reservations. Is there a restaurant you\x27d like to search for?\"\n" ++
  "3. DO NOT call tools for out-of-scope queries\n" ++
  "4. If unsure whether a query is in scope, err on the side of asking clarifying questions about restaurant preferences\n\n" ++
  "FORMATTING REQUIREMENTS - CRITICAL AND MANDATORY:\n" ++
  "1. ALWAYS use proper spacing and line breaks between information\n" ++
  "2. ALWAYS add a blank line between each restaurant (press Enter twice)\n" ++
  "3. NEVER remove spaces from restaurant names or addresses\n" ++
  "4. ALWAYS write out addresses with proper spacing: NOT \"3572RiverRd,Downtown\" BUT \"3572 River Rd, Downtown\"\n" ++
  "5. ALWAYS use **bold** (two asterisks) for restaurant names\n" ++
  "6. Use bullet points for information fields\n" ++
  "7. DO NOT concatenate words - always include spaces between words\n\n" ++
  "MANDATORY OUTPUT TEMPLATE FOR RESTAURANTS:\n" ++
  "Found these restaurants:\n\n" ++
  "**Restaurant Name**\n" ++
  "- Cuisine: Type\n" ++
  "- Location: City\n" ++
  "- Address: Full Address With Spaces\n" ++
  "- Rating: X.X / 5\n" ++
  "- Price Range: $ / $$ / $$$ / $$$$\n" ++
  "- Description: Full description with spaces\n\n" ++
  "**Next Restaurant Name**\n" ++
  "- Cuisine: Type\n" ++
  "- Location: City\n" ++
  "- Address: Full Address With Spaces\n" ++
  "- Rating: X.X / 5\n" ++
  "- Price Range: $ / $$ / $$$ / $$$$\n" ++
  "- Description: Full description with spaces\n\n" ++
  "CRITICAL AGENT RULES:\n" ++
  "1. Use tools to get restaurant information\n" ++
  "2. After tool returns results, format them exactly as shown above\n" ++
  "3. NEVER stop after a tool call - always provide your formatted response\n" ++
  "4. DO NOT call the same tool twice unless user asks differently\n" ++
  "5. Be conversational and helpful\n\n" ++
  "REMEMBER: Every space matters. Write naturally with proper English spacing."

/-- One choice of a non-streaming completion: message content and the
(possibly empty, hence falsy) tool-call directive list. -/
structure GwChoice where
  content : Option String := none
  tool_calls : List ToolCall := []
deriving DecidableEq

/-- A non-streaming gateway response; an empty `choices` list models the
structurally invalid case. -/
structure GwResponse where
  choices : List GwChoice := []
deriving DecidableEq

/-- The external Completion Gateway of the spec: a non-streaming completion
and a streaming one delivering content deltas.  The Boolean argument records
whether the tool catalog was offered (`tools=TOOLS` vs `tools=None`). -/
structure CompletionGateway where
  complete : List ChatMessage → Bool → GwResponse
  completeStream : List ChatMessage → Bool → List String

/-- A log entry for one gateway call: streaming flag and whether the tool
catalog was offered. -/
structure GwCall where
  stream : Bool
  tools_offered : Bool
deriving DecidableEq

/-- The values `process_message` yields: status strings (including apologies
and clarifications), tool-result events `{tool_name, arguments, result}`, and
final-answer text chunks. -/
inductive AgentEvent where
  | statusText : String → AgentEvent
  | toolResult : Option String → ToolArguments → String → AgentEvent
  | textChunk : String → AgentEvent
deriving DecidableEq

/-- The agent's persistent state: conversation history and the shared store. -/
structure AgentState where
  history : List ChatMessage
  db : RestaurantDatabase
deriving DecidableEq

/-- `ReservationAgent.__init__`: the history starts with the system entry. -/
def initialAgentState (db : RestaurantDatabase) : AgentState :=
  ⟨[ChatMessage.system system_message_content], db⟩

/-- `ReservationAgent._execute_tool`: wrap the call in a dispatcher request,
surface a dispatcher error as text, otherwise extract the content text. -/
def execute_tool (db : RestaurantDatabase) (tool_name : Option String)
    (arguments : ToolArguments) (new_id : String) (now : Nat) :
    String × RestaurantDatabase :=
  let pair := handle_request db
    { method := some "tools/call", id := some 1, params_name := tool_name,
      params_arguments := arguments } new_id now
  match pair.1.error with
  | some e =>
    ("Error executing " ++ (match tool_name with | some s => s | none => "None") ++
      ": " ++ e.2, pair.2)
  | none =>
    match pair.1.result with
    | some (MCPResult.content text) => (text, pair.2)
    | _ => ("No result", pair.2)

/-- The per-directive execution of the loop body: parse failure degrades to
empty arguments, each directive runs through the dispatcher in order, a
tool-result event is emitted and a tool history entry is built; fresh
reservation identifiers come from `ids` at successive indices. -/
def execToolCalls (ids : Nat → String) (now : Nat) :
    List ToolCall → RestaurantDatabase → Nat →
      List AgentEvent × List ChatMessage × RestaurantDatabase × Nat
  | [], db, k => ([], [], db, k)
  | tc :: rest, db, k =>
    let arguments := tc.arguments.getD {}
    let pair := execute_tool db tc.name arguments (ids k) now
    let r := execToolCalls ids now rest pair.2 (k + 1)
    (AgentEvent.toolResult tc.name arguments pair.1 :: r.1,
      ChatMessage.tool tc.id pair.1 :: r.2.1, r.2.2.1, r.2.2.2)

/-- The outcome of the bounded agent loop: yielded events, gateway-call log,
final history and store, and the fuel left when the loop stopped (`0` exactly
when all five iterations ran). -/
structure LoopResult where
  events : List AgentEvent
  calls : List GwCall
  history : List ChatMessage
  db : RestaurantDatabase
  remaining : Nat

/-- The apology emitted after five loop iterations without a final answer. -/
def apology_message : String :=
  "I apologize, but I\x27m having trouble completing your request. Please try rephrasing."

/-- The message emitted on a structurally invalid gateway response. -/
def issue_message : String :=
  "I apologize, but I encountered an issue processing your request."

/-- The tool-name list of the `Using tools: ...` status line. -/
def toolNamesText (tool_calls : List ToolCall) : String :=
  String.intercalate ", " (tool_calls.map (fun tc =>
    match tc.name with | some s => s | none => "None"))

/-- The `while iteration < max_iterations` loop of `process_message`,
structurally recursing on the remaining fuel (five at entry).  Each iteration
makes one non-streaming gateway call, offering the tool catalog only until
tools have executed; a directive list leads to execution and another
iteration, no directives lead to one streaming call and termination, and a
response without choices terminates with the issue message. -/
def agentLoop (gw : CompletionGateway) (ids : Nat → String) (now : Nat) :
    Nat → List ChatMessage → RestaurantDatabase → Bool → Nat → LoopResult
  | 0, history, db, _, _ => ⟨[], [], history, db, 0⟩
  | fuel + 1, history, db, tools_executed, k =>
    let tools_offered := !tools_executed
    match (gw.complete history tools_offered).choices with
    | [] =>
      ⟨[AgentEvent.statusText issue_message], [⟨false, tools_offered⟩],
        history, db, fuel⟩
    | choice :: _ =>
      match choice.tool_calls with
      | [] =>
        let chunks := (gw.completeStream history tools_offered).filter
          (fun s => s != "")
        let complete_response := String.join chunks
        let history2 := if complete_response != "" then
            history ++ [ChatMessage.assistant complete_response]
          else history
        ⟨chunks.map AgentEvent.textChunk,
          [⟨false, tools_offered⟩, ⟨true, tools_offered⟩], history2, db, fuel⟩
      | tc :: tcs =>
        let history1 := history ++
          [ChatMessage.assistantToolCalls (choice.content.getD "") (tc :: tcs)]
        let r := execToolCalls ids now (tc :: tcs) db k
        let rest := agentLoop gw ids now fuel (history1 ++ r.2.1) r.2.2.1 true r.2.2.2
        ⟨AgentEvent.statusText ("Using tools: " ++ toolNamesText (tc :: tcs) ++ "...") ::
            (r.1 ++ rest.events),
          ⟨false, tools_offered⟩ :: rest.calls, rest.history, rest.db, rest.remaining⟩

/-- `ReservationAgent.process_message`: local short-circuit first, otherwise
append the user turn and run the bounded loop; when five iterations elapsed
(`remaining = 0`) the rephrase apology is yielded last.  Returns the yielded
events, the gateway-call log and the new agent state. -/
def process_message (gw : CompletionGateway) (ids : Nat → String) (now : Nat)
    (st : AgentState) (user_message : String) :
    List AgentEvent × List GwCall × AgentState :=
  match is_out_of_context st.history user_message with
  | (true, some clarifying_resp) =>
    ([AgentEvent.statusText clarifying_resp], [],
      ⟨st.history ++ [ChatMessage.assistant clarifying_resp], st.db⟩)
  | (true, none) => ([], [], st)
  | (false, _) =>
    let history1 := st.history ++ [ChatMessage.user user_message]
    let r := agentLoop gw ids now 5 history1 st.db false 0
    let events := if r.remaining == 0 then
        r.events ++ [AgentEvent.statusText apology_message]
      else r.events
    (events, r.calls, ⟨r.history, r.db⟩)

/-- A gateway whose non-streaming completion always carries a non-empty
tool-call directive list (and never a final text answer). -/
def alwaysToolCalls (gw : CompletionGateway) : Prop :=
  ∀ (h : List ChatMessage) (t : Bool),
    ∃ (c : GwChoice) (cs : List GwChoice) (tc : ToolCall) (tcs : List ToolCall),
      (gw.complete h t).choices = c :: cs ∧ c.tool_calls = tc :: tcs

theorem agentLoop_allTools (gw : CompletionGateway) (ids : Nat → String) (now : Nat)
    (H : alwaysToolCalls gw) :
    ∀ (fuel : Nat) (history : List ChatMessage) (db : RestaurantDatabase)
      (te : Bool) (k : Nat),
      (agentLoop gw ids now fuel history db te k).calls.length = fuel ∧
      (∀ c ∈ (agentLoop gw ids now fuel history db te k).calls, c.stream = false) ∧
      (agentLoop gw ids now fuel history db te k).remaining = 0 := by
  intro fuel
  induction fuel with
  | zero =>
    intro history db te k
    exact ⟨rfl, by simp [agentLoop], rfl⟩
  | succ fuel ih =>
    intro history db te k
    obtain ⟨c, cs, tc, tcs, hc, htc⟩ := H history (!te)
    refine ⟨?_, ?_, ?_⟩
    · simp only [agentLoop, hc, htc, List.length_cons]
      rw [(ih _ _ _ _).1]
    · simp only [agentLoop, hc, htc]
      intro g hmem
      rcases List.mem_cons.mp hmem with h | h
      · rw [h]
      · exact (ih _ _ _ _).2.1 g h
    · simp only [agentLoop, hc, htc]
      exact (ih _ _ _ _).2.2

/-- C3: if the gateway always returns tool-call directives and the incoming
message does not short-circuit locally, `process_message` performs exactly
five loop iterations — one non-streaming gateway call each —, no more than
five of its gateway calls offer the tool catalog, and the last yielded event
is the rephrase apology. -/
theorem loop_bound_spec (gw : CompletionGateway) (ids : Nat → String) (now : Nat)
    (st : AgentState) (user_message : String)
    (H : alwaysToolCalls gw)
    (hsc : (is_out_of_context st.history user_message).1 = false) :
    (process_message gw ids now st user_message).2.1.length = 5 ∧
    (∀ c ∈ (process_message gw ids now st user_message).2.1, c.stream = false) ∧
    ((process_message gw ids now st user_message).2.1.countP
        (fun c => c.tools_offered)) ≤ 5 ∧
    (process_message gw ids now st user_message).1.getLast? =
      some (AgentEvent.statusText apology_message) := by
  rcases hio : is_out_of_context st.history user_message with ⟨b, o⟩
  have hb : b = false := by
    rw [hio] at hsc
    exact hsc
  subst hb
  have hl := agentLoop_allTools gw ids now H 5
    (st.history ++ [ChatMessage.user user_message]) st.db false 0
  simp only [process_message, hio]
  refine ⟨hl.1, hl.2.1, ?_, ?_⟩
  · calc (agentLoop gw ids now 5 (st.history ++ [ChatMessage.user user_message])
          st.db false 0).calls.countP (fun c => c.tools_offered)
        ≤ (agentLoop gw ids now 5 (st.history ++ [ChatMessage.user user_message])
          st.db false 0).calls.length := List.countP_le_length _
      _ = 5 := hl.1
  · rw [hl.2.2]
    simp [List.getLast?_concat]

set_option maxRecDepth 40000

/-- A gateway that always requests one `search_restaurants` tool call and
streams nothing. -/
def constantToolGw : CompletionGateway :=
  ⟨fun _ _ => ⟨[⟨none, [⟨some "call1", some "search_restaurants", some {}⟩]⟩]⟩,
   fun _ _ => []⟩

theorem loop_bound_spec_witness :
    alwaysToolCalls constantToolGw ∧
      (is_out_of_context (initialAgentState witnessDb).history
        "Find me Italian restaurants in Downtown please").1 = false ∧
      (process_message constantToolGw (fun _ => "uuid") 0 (initialAgentState witnessDb)
        "Find me Italian restaurants in Downtown please").2.1.length = 5 := by
  have hA : alwaysToolCalls constantToolGw := by
    intro h t
    exact ⟨_, _, _, _, rfl, rfl⟩
  have hsc : (is_out_of_context (initialAgentState witnessDb).history
      "Find me Italian restaurants in Downtown please").1 = false := rfl
  exact ⟨hA, hsc,
    (loop_bound_spec constantToolGw (fun _ => "uuid") 0 (initialAgentState witnessDb)
      "Find me Italian restaurants in Downtown please" hA hsc).1⟩

/-- C5 counterexample: on a freshly constructed agent, the message
"Any other recommendations?" yields the "Do you want more recommendations
similar..." clarification — not one beginning "What kind of
recommendations are you looking for?" as claimed; the system prompt itself
contains "recommendations", so the history check fires. -/
theorem local_short_circuit_counterexample :
    (process_message constantToolGw (fun _ => "uuid") 0 (initialAgentState witnessDb)
        "Any other recommendations?").1 =
      [AgentEvent.statusText more_reco_similar_response] ∧
    ("What kind of recommendations are you looking for?".data.isPrefixOf
        more_reco_similar_response.data) = false := by
  constructor
  · have hio : is_out_of_context [ChatMessage.system system_message_content]
        "Any other recommendations?" = (true, some more_reco_similar_response) := rfl
    simp [process_message, initialAgentState, hio]
  · rfl

/-- C5 (amended): for a freshly constructed agent, the input
"Any other recommendations?" short-circuits locally against any gateway —
no gateway call and no tool call occur — and yields exactly the
"Do you want more recommendations similar to the ones I showed earlier, or
would you like to change your preferences (cuisine, location, price)?"
clarification, which is also appended to the history as an assistant turn
(the system prompt mentions "recommendations", so the history check always
takes the more-of-the-same branch on a fresh agent). -/
theorem local_short_circuit_spec (gw : CompletionGateway) (ids : Nat → String)
    (now : Nat) (db : RestaurantDatabase) :
    process_message gw ids now (initialAgentState db) "Any other recommendations?" =
      ([AgentEvent.statusText more_reco_similar_response], [],
        ⟨[ChatMessage.system system_message_content,
          ChatMessage.assistant more_reco_similar_response], db⟩) := by
  have hio : is_out_of_context [ChatMessage.system system_message_content]
      "Any other recommendations?" = (true, some more_reco_similar_response) := rfl
  simp [process_message, initialAgentState, hio]
